import Mathlib

/-!
Shallow embedding of `src/apps/mitt-worker/src/mitt_worker/worker.py`
(denizlg24/fudl): a Redis-polling worker for BullMQ video-analysis jobs.

The worker's store interactions are `brpoplpush` (atomic move from the
`bull:video-analysis:wait` list to the `bull:video-analysis:active` list,
with a 5 second bounded wait returning `None` on timeout) and `hset`
(writing the `returnvalue` field of the per-job hash). The Python control
flow of `run_worker` — the startup `ping`, the outer
`except Exception` handler and the inner
`except (json.JSONDecodeError, KeyError)` handler — is embedded as a step
function on an explicit store state, and the infinite `while True` loop as
iteration of that step over a finite trace of per-iteration network events.
-/

/-- JSON values, the domain of Python's `json.loads` / `json.dumps`.
Numbers are modelled as rationals (Python floats round-trip exactly
through `json`). Objects keep their fields in insertion order, as Python
dicts and `json.dumps` do. -/
inductive Json where
  | null : Json
  | bool (b : Bool) : Json
  | num (q : Rat) : Json
  | str (s : String) : Json
  | arr (elems : List Json) : Json
  | obj (fields : List (String × Json)) : Json
deriving Repr

/-- Python exceptions distinguished by the handlers in `run_worker`:
the inner handler catches `json.JSONDecodeError` and `KeyError`; the outer
handler catches every other `Exception` (e.g. `TypeError` from
subscripting a non-dict, or a `redis` connection error). -/
inductive PyExc where
  | jsonDecodeError (msg : String) : PyExc
  | keyError (key : String) : PyExc
  | typeError (msg : String) : PyExc
  | other (msg : String) : PyExc
deriving Repr, DecidableEq

/-- Raw wire bytes as stored in the Redis lists, modelled by their parse
status: `malformed s` stands for bytes that are not well-formed JSON
(so `json.loads` raises `JSONDecodeError` on them), `val j` for bytes
whose JSON parse is `j`. This is exactly the contract of `json.loads`
on arbitrary bytes. -/
inductive Wire where
  | malformed (s : String) : Wire
  | val (j : Json) : Wire
deriving Repr

/-- Embedding of `json.loads(job_data)` at worker.py line 75: either the
parsed JSON value, or a raised `JSONDecodeError`. -/
def json_loads : Wire → Except PyExc Json
  | .malformed _ => .error (.jsonDecodeError "Expecting value")
  | .val j => .ok j

/-- Embedding of `json.dumps(result)` at worker.py line 81: serialises a
JSON value to wire bytes; the bytes parse back to the same value. -/
def json_dumps (j : Json) : Wire := .val j

/-- Ordered lookup in a Python dict's field list. -/
def jlookup : List (String × Json) → String → Option Json
  | [], _ => none
  | (k, v) :: rest, key => if k = key then some v else jlookup rest key

/-- Embedding of Python subscription `obj[key]` as it behaves on decoded
JSON values: a dict lookup raises `KeyError` when the key is absent, and
subscripting a non-dict with a string key raises `TypeError` (lists take
integer indices, strings and scalars are not subscriptable by string). -/
def pySubscript (j : Json) (key : String) : Except PyExc Json :=
  match j with
  | .obj fields =>
    match jlookup fields key with
    | some v => .ok v
    | none => .error (.keyError key)
  | _ => .error (.typeError "object is not subscriptable")

/-- Python's `str()` conversion as used by the f-string
`f"bull:video-analysis:{job_id}"` at worker.py line 81. Real job ids are
JSON strings; scalar conversions are exact, composite values are
abbreviated (no lifecycle key in this development depends on them). -/
def pyStr : Json → String
  | .str s => s
  | .bool true => "True"
  | .bool false => "False"
  | .null => "None"
  | .num q => toString q
  | .arr _ => "<list>"
  | .obj _ => "<dict>"

/-- worker.py lines 17-20: `PlayerAnalysis` TypedDict. The `position`
tuple of floats is modelled with rational coordinates. -/
structure PlayerAnalysis where
  player_id : String
  position : Rat × Rat
  route_type : Option String
deriving Repr, DecidableEq

/-- worker.py lines 23-26: `VideoAnalysisResult` TypedDict. -/
structure VideoAnalysisResult where
  routes_detected : List String
  players : List PlayerAnalysis
  analysis_complete : Bool
deriving Repr, DecidableEq

/-- How `json.dumps` serialises a `PlayerAnalysis` dict: keys in
declaration order, the position tuple as a two-element array, `None` as
JSON null. -/
def PlayerAnalysis.toJson (p : PlayerAnalysis) : Json :=
  .obj [("player_id", .str p.player_id),
        ("position", .arr [.num p.position.1, .num p.position.2]),
        ("route_type", match p.route_type with
          | none => .null
          | some s => .str s)]

/-- Inverse of `PlayerAnalysis.toJson`: decodes the stored JSON back to
the typed record. -/
def PlayerAnalysis.fromJson? (j : Json) : Option PlayerAnalysis :=
  match j with
  | .obj fields =>
    match jlookup fields "player_id", jlookup fields "position",
          jlookup fields "route_type" with
    | some (.str pid), some (.arr [.num a, .num b]), some rt =>
      match rt with
      | .null => some ⟨pid, (a, b), none⟩
      | .str s => some ⟨pid, (a, b), some s⟩
      | _ => none
    | _, _, _ => none
  | _ => none

/-- Decode a JSON array of strings. -/
def decodeStrList : List Json → Option (List String)
  | [] => some []
  | .str s :: rest =>
    match decodeStrList rest with
    | some t => some (s :: t)
    | none => none
  | _ => none

/-- Decode a JSON array of players. -/
def decodePlayers : List Json → Option (List PlayerAnalysis)
  | [] => some []
  | j :: rest =>
    match PlayerAnalysis.fromJson? j, decodePlayers rest with
    | some p, some t => some (p :: t)
    | _, _ => none

/-- How `json.dumps` serialises a `VideoAnalysisResult` dict at
worker.py line 81: keys in declaration order. -/
def VideoAnalysisResult.toJson (r : VideoAnalysisResult) : Json :=
  .obj [("routes_detected", .arr (r.routes_detected.map Json.str)),
        ("players", .arr (r.players.map PlayerAnalysis.toJson)),
        ("analysis_complete", .bool r.analysis_complete)]

/-- Inverse of `VideoAnalysisResult.toJson`: decodes the stored
`returnvalue` JSON back to the typed result. -/
def VideoAnalysisResult.fromJson? (j : Json) : Option VideoAnalysisResult :=
  match j with
  | .obj fields =>
    match jlookup fields "routes_detected", jlookup fields "players",
          jlookup fields "analysis_complete" with
    | some (.arr rs), some (.arr ps), some (.bool b) =>
      match decodeStrList rs, decodePlayers ps with
      | some routes, some players => some ⟨routes, players, b⟩
      | _, _ => none
    | _, _, _ => none
  | _ => none

/-- worker.py lines 38-47, `process_video`: the Processing Routine.
The source prints, sleeps 2 seconds, and returns the literal
`VideoAnalysisResult(routes_detected=[], players=[], analysis_complete=True)`;
it has no raise path. Its parameter is annotated `str` but Python does not
enforce that, so the embedding accepts any decoded JSON value, as the call
site at line 77 may supply. -/
def process_video (_video_url : Json) : VideoAnalysisResult :=
  { routes_detected := [], players := [], analysis_complete := true }

/-- The Redis state visible to the worker: the
`bull:video-analysis:wait` list, the `bull:video-analysis:active` list
(head of each list is the Redis list head, so `BRPOPLPUSH` pops the last
element of `wait` and pushes it at the head of `active`), and the hash
entries written by `hset`, as (key, field, value) triples. -/
structure RedisState where
  wait : List Wire
  active : List Wire
  hashes : List (String × String × Wire)
deriving Repr

/-- worker.py lines 67-71: `r.brpoplpush(wait, active, timeout=5)` —
the single atomic move. If `wait` is empty for the whole bounded wait the
call returns the `None` sentinel and the state is untouched; otherwise
the tail element of `wait` is removed and pushed at the head of `active`
in one indivisible step, and returned. -/
def brpoplpush (s : RedisState) : Option Wire × RedisState :=
  match s.wait.getLast? with
  | none => (none, s)
  | some w => (some w, { s with wait := s.wait.dropLast, active := w :: s.active })

/-- Redis `HSET key field value`: replaces the field if present, else
appends it. -/
def hsetEntries (hs : List (String × String × Wire)) (k f : String) (v : Wire) :
    List (String × String × Wire) :=
  (hs.filter (fun e => ¬(e.1 = k ∧ e.2.1 = f))) ++ [(k, f, v)]

/-- worker.py line 81: `r.hset(f"bull:video-analysis:{job_id}", "returnvalue", ...)`. -/
def hset (s : RedisState) (k f : String) (v : Wire) : RedisState :=
  { s with hashes := hsetEntries s.hashes k f v }

/-- The outcome of one iteration of the `while True` loop. -/
inductive StepOutcome where
  | idle : StepOutcome
  | completed (jobId : String) : StepOutcome
  | jobError (e : PyExc) : StepOutcome
  | workerError (e : PyExc) : StepOutcome
deriving Repr, DecidableEq

/-- The Redis calls an iteration issues, in order: the polling
`brpoplpush` and any `hset`. -/
inductive StoreOp where
  | poll : StoreOp
  | hsetOp (key field : String) : StoreOp
deriving Repr, DecidableEq

/-- One loop iteration's result: what the handlers reported, the store
state after the iteration, and the store calls it made in order. -/
structure StepResult where
  outcome : StepOutcome
  state : RedisState
  ops : List StoreOp

/-- Whether an exception is caught by the inner handler at
worker.py line 83: `except (json.JSONDecodeError, KeyError)`. -/
def PyExc.caughtInner : PyExc → Bool
  | .jsonDecodeError _ => true
  | .keyError _ => true
  | _ => false

/-- worker.py lines 74-81, the inner `try` body on an acquired job:
`json.loads` the raw bytes, read `job["data"]["videoUrl"]`, run the
routine on it, read `job["id"]`, and `hset` the serialised result under
`bull:video-analysis:<jobId>` field `returnvalue`. Any exception along
the way aborts before the `hset` (the only write), leaving the hashes as
they were. The routine is a parameter so that the handlers' behaviour on
a raising routine is part of the embedding; the worker instantiates it
with `process_video`. -/
def runInner (routine : Json → Except PyExc VideoAnalysisResult)
    (jobData : Wire) (s : RedisState) : Except PyExc (String × RedisState) :=
  match json_loads jobData with
  | .error e => .error e
  | .ok job =>
    match pySubscript job "data" with
    | .error e => .error e
    | .ok data =>
      match pySubscript data "videoUrl" with
      | .error e => .error e
      | .ok videoUrl =>
        match routine videoUrl with
        | .error e => .error e
        | .ok result =>
          match pySubscript job "id" with
          | .error e => .error e
          | .ok jobIdVal =>
            let jobId := pyStr jobIdVal
            .ok (jobId,
              hset s ("bull:video-analysis:" ++ jobId) "returnvalue"
                (json_dumps result.toJson))

/-- worker.py lines 64-89, one iteration of the `while True` loop with a
reachable store: poll with `brpoplpush`; on the `None` sentinel just loop
(idle); on a job run the inner body; the inner handler catches
`JSONDecodeError`/`KeyError` and prints, the outer handler catches every
other `Exception` and prints — neither writes anything, so the state
after a failed iteration is exactly the post-move state. -/
def stepWith (routine : Json → Except PyExc VideoAnalysisResult)
    (s : RedisState) : StepResult :=
  match brpoplpush s with
  | (none, s1) => ⟨.idle, s1, [.poll]⟩
  | (some w, s1) =>
    match runInner routine w s1 with
    | .ok (jobId, s2) =>
      ⟨.completed jobId, s2,
        [.poll, .hsetOp ("bull:video-analysis:" ++ jobId) "returnvalue"]⟩
    | .error e =>
      if e.caughtInner then ⟨.jobError e, s1, [.poll]⟩
      else ⟨.workerError e, s1, [.poll]⟩

/-- The worker's routine as run_worker wires it: `process_video` never
raises, so its outcome is always `ok`. -/
def workerRoutine (videoUrl : Json) : Except PyExc VideoAnalysisResult :=
  .ok (process_video videoUrl)

/-- One loop iteration of the worker proper (routine = `process_video`). -/
def step (s : RedisState) : StepResult := stepWith workerRoutine s

/-- Connectivity of the Queue Store during one loop iteration: `ok`
means the `brpoplpush` call goes through; `connError` means it raises a
connection error, which the outer `except Exception` at worker.py
line 88 catches and prints, leaving the state untouched. -/
inductive NetEvent where
  | ok : NetEvent
  | connError : NetEvent
deriving Repr, DecidableEq

/-- One loop iteration under a connectivity event. On `connError` the
poll attempt raises; the outer handler prints "Worker error" and the
loop continues — no state change, no crash. -/
def stepNet (routine : Json → Except PyExc VideoAnalysisResult)
    (ev : NetEvent) (s : RedisState) : StepResult :=
  match ev with
  | .ok => stepWith routine s
  | .connError => ⟨.workerError (.other "ConnectionError"), s, [.poll]⟩

/-- Iterating the `while True` loop over a finite trace of per-iteration
connectivity events: the final state, the per-iteration outcomes in
order, and the concatenated store-operation trace. -/
def runLoop (routine : Json → Except PyExc VideoAnalysisResult) :
    List NetEvent → RedisState → RedisState × List StepOutcome × List StoreOp
  | [], s => (s, [], [])
  | ev :: evs, s =>
    let r := stepNet routine ev s
    let rest := runLoop routine evs r.state
    (rest.1, r.outcome :: rest.2.1, r.ops ++ rest.2.2)

/-- A whole run of the worker process. -/
structure WorkerRun where
  ready : Bool
  finalState : RedisState
  outcomes : List StepOutcome
  ops : List StoreOp

/-- worker.py lines 50-89, `run_worker`: connect and `ping` first; on
failure print the error and `return` — the loop is never entered and the
"mitt-worker started" readiness line is never printed (`ready := false`).
On success, announce readiness and run the polling loop. -/
def run_worker (connectOk : Bool)
    (routine : Json → Except PyExc VideoAnalysisResult)
    (events : List NetEvent) (s : RedisState) : WorkerRun :=
  if connectOk then
    let r := runLoop routine events s
    ⟨true, r.1, r.2.1, r.2.2⟩
  else
    ⟨false, s, [], []⟩

/-- Wire bytes of a well-formed BullMQ job record
`{"id": id, "data": {"videoUrl": url}}`. -/
def mkJobWire (id url : String) : Wire :=
  .val (.obj [("id", .str id), ("data", .obj [("videoUrl", .str url)])])

/-- Checks that every `hset` in a store-operation trace immediately
follows the polling call of its own iteration: the flag records whether
the previous operation was a poll (so a terminal write is allowed here).
A trace satisfying this never interleaves a new acquire between a job's
processing and that job's terminal write. -/
def opsOk : Bool → List StoreOp → Bool
  | _, [] => true
  | _, .poll :: rest => opsOk true rest
  | true, .hsetOp _ _ :: rest => opsOk false rest
  | false, .hsetOp _ _ :: _ => false

/-- A full trace is well ordered when read with no pending poll. -/
def opsShapeOk (ops : List StoreOp) : Bool := opsOk false ops

/-- A Processing Routine that raises on every input, standing for a
`process_video` replacement that throws (e.g. `RuntimeError`); used to
exercise the worker's handlers on routine failure. -/
def boomRoutine (_payload : Json) : Except PyExc VideoAnalysisResult :=
  .error (.other "RuntimeError: boom")

/-! ## Codec round-trip lemmas -/

/-- Decoding a serialised string list recovers it. -/
theorem decodeStrList_map (xs : List String) :
    decodeStrList (xs.map Json.str) = some xs := by
  induction xs with
  | nil => rfl
  | cons x xs ih => simp [decodeStrList, ih]

/-- Decoding a serialised player recovers it. -/
theorem player_roundtrip (p : PlayerAnalysis) :
    PlayerAnalysis.fromJson? p.toJson = some p := by
  obtain ⟨pid, ⟨a, b⟩, rt⟩ := p
  cases rt <;> rfl

/-- Decoding a serialised player list recovers it. -/
theorem decodePlayers_map (ps : List PlayerAnalysis) :
    decodePlayers (ps.map PlayerAnalysis.toJson) = some ps := by
  induction ps with
  | nil => rfl
  | cons p ps ih => simp [decodePlayers, player_roundtrip, ih]

/-- Decoding a serialised analysis result recovers it exactly: the codec
round-trip is lossless for the result type. -/
theorem result_roundtrip (r : VideoAnalysisResult) :
    VideoAnalysisResult.fromJson? r.toJson = some r := by
  obtain ⟨routes, players, complete⟩ := r
  simp [VideoAnalysisResult.toJson, VideoAnalysisResult.fromJson?, jlookup,
    decodeStrList_map, decodePlayers_map]

/-! ## Structural lemmas about single iterations -/

/-- An empty Waiting list makes the poll return the no-item sentinel with
the store untouched. -/
theorem brpoplpush_empty (act : List Wire) (hs : List (String × String × Wire)) :
    brpoplpush ⟨[], act, hs⟩ = (none, ⟨[], act, hs⟩) := rfl

/-- A nonempty Waiting list makes the poll move exactly its tail element
to the head of the Active list, in one step, touching nothing else. -/
theorem brpoplpush_concat (w : Wire) (ws act : List Wire)
    (hs : List (String × String × Wire)) :
    brpoplpush ⟨ws ++ [w], act, hs⟩ = (some w, ⟨ws, w :: act, hs⟩) := by
  simp [brpoplpush]

/-- An iteration on an empty Waiting list is the idle outcome. -/
theorem stepWith_empty (routine : Json → Except PyExc VideoAnalysisResult)
    (s : RedisState) (h : s.wait.getLast? = none) :
    stepWith routine s = ⟨.idle, s, [.poll]⟩ := by
  unfold stepWith brpoplpush
  rw [h]

/-- An iteration whose inner body succeeds reports completion and leaves
the store at the inner body's final state, having issued the poll and the
terminal write in that order. -/
theorem stepWith_pop_ok (routine : Json → Except PyExc VideoAnalysisResult)
    (s : RedisState) (w : Wire) (jobId : String) (s2 : RedisState)
    (h : s.wait.getLast? = some w)
    (hr : runInner routine w ⟨s.wait.dropLast, w :: s.active, s.hashes⟩ =
      .ok (jobId, s2)) :
    stepWith routine s = ⟨.completed jobId, s2,
      [.poll, .hsetOp ("bull:video-analysis:" ++ jobId) "returnvalue"]⟩ := by
  unfold stepWith brpoplpush
  rw [h]
  dsimp only
  rw [hr]

/-- An iteration whose inner body raises is caught by one of the two
handlers; the store is left at the post-move state — nothing is written. -/
theorem stepWith_pop_err (routine : Json → Except PyExc VideoAnalysisResult)
    (s : RedisState) (w : Wire) (e : PyExc)
    (h : s.wait.getLast? = some w)
    (hr : runInner routine w ⟨s.wait.dropLast, w :: s.active, s.hashes⟩ =
      .error e) :
    stepWith routine s =
      if e.caughtInner then
        ⟨.jobError e, ⟨s.wait.dropLast, w :: s.active, s.hashes⟩, [.poll]⟩
      else
        ⟨.workerError e, ⟨s.wait.dropLast, w :: s.active, s.hashes⟩, [.poll]⟩ := by
  unfold stepWith brpoplpush
  rw [h]
  dsimp only
  rw [hr]

/-- A successful inner body is exactly a `returnvalue` hash write on top
of the incoming state. -/
theorem runInner_ok_shape (routine : Json → Except PyExc VideoAnalysisResult)
    (w : Wire) (s : RedisState) (jobId : String) (s2 : RedisState)
    (h : runInner routine w s = .ok (jobId, s2)) :
    ∃ res : VideoAnalysisResult,
      s2 = hset s ("bull:video-analysis:" ++ jobId) "returnvalue"
        (json_dumps res.toJson) := by
  unfold runInner at h
  rcases hl : json_loads w with e | job
  · rw [hl] at h; simp at h
  · rw [hl] at h; dsimp only at h
    rcases hd : pySubscript job "data" with e | data
    · rw [hd] at h; simp at h
    · rw [hd] at h; dsimp only at h
      rcases hu : pySubscript data "videoUrl" with e | videoUrl
      · rw [hu] at h; simp at h
      · rw [hu] at h; dsimp only at h
        rcases hro : routine videoUrl with e | result
        · rw [hro] at h; simp at h
        · rw [hro] at h; dsimp only at h
          rcases hi : pySubscript job "id" with e | jobIdVal
          · rw [hi] at h; simp at h
          · rw [hi] at h; dsimp only at h
            simp only [Except.ok.injEq, Prod.mk.injEq] at h
            obtain ⟨h1, h2⟩ := h
            subst h1
            exact ⟨result, h2.symm⟩

/-- Every hash entry present after one iteration was already present, or
is a `returnvalue` entry. -/
theorem stepWith_hashes_sub (routine : Json → Except PyExc VideoAnalysisResult)
    (s : RedisState) (k f : String) (v : Wire)
    (h : (k, f, v) ∈ (stepWith routine s).state.hashes) :
    (k, f, v) ∈ s.hashes ∨ f = "returnvalue" := by
  rcases hg : s.wait.getLast? with _ | w
  · rw [stepWith_empty routine s hg] at h
    exact Or.inl h
  · rcases hr : runInner routine w ⟨s.wait.dropLast, w :: s.active, s.hashes⟩
        with e | ⟨jobId, s2⟩
    · rw [stepWith_pop_err routine s w e hg hr] at h
      by_cases hc : e.caughtInner <;> simp only [hc] at h <;>
        simp only [if_true, if_false, Bool.false_eq_true, ite_false, ite_true] at h <;>
        exact Or.inl h
    · rw [stepWith_pop_ok routine s w jobId s2 hg hr] at h
      obtain ⟨res, hres⟩ := runInner_ok_shape routine w _ jobId s2 hr
      subst hres
      simp only [hset, hsetEntries] at h
      rcases List.mem_append.mp h with h2 | h2
      · exact Or.inl (List.mem_of_mem_filter h2)
      · right
        simp only [List.mem_singleton, Prod.mk.injEq] at h2
        exact h2.2.1

/-- The operation list of one iteration is the poll alone, or the poll
followed immediately by one `returnvalue` write. -/
theorem stepWith_ops_shape (routine : Json → Except PyExc VideoAnalysisResult)
    (s : RedisState) :
    (stepWith routine s).ops = [.poll] ∨
      ∃ k, (stepWith routine s).ops = [.poll, .hsetOp k "returnvalue"] := by
  rcases hg : s.wait.getLast? with _ | w
  · rw [stepWith_empty routine s hg]
    exact Or.inl rfl
  · rcases hr : runInner routine w ⟨s.wait.dropLast, w :: s.active, s.hashes⟩
        with e | ⟨jobId, s2⟩
    · rw [stepWith_pop_err routine s w e hg hr]
      by_cases hc : e.caughtInner <;> simp [hc]
    · rw [stepWith_pop_ok routine s w jobId s2 hg hr]
      exact Or.inr ⟨"bull:video-analysis:" ++ jobId, rfl⟩

/-- One iteration under a connectivity event keeps the hash-entry
subset property. -/
theorem stepNet_hashes_sub (routine : Json → Except PyExc VideoAnalysisResult)
    (ev : NetEvent) (s : RedisState) (k f : String) (v : Wire)
    (h : (k, f, v) ∈ (stepNet routine ev s).state.hashes) :
    (k, f, v) ∈ s.hashes ∨ f = "returnvalue" := by
  cases ev
  · exact stepWith_hashes_sub routine s k f v h
  · exact Or.inl h

/-- One iteration under a connectivity event issues the poll alone or
poll-then-returnvalue-write. -/
theorem stepNet_ops_shape (routine : Json → Except PyExc VideoAnalysisResult)
    (ev : NetEvent) (s : RedisState) :
    (stepNet routine ev s).ops = [.poll] ∨
      ∃ k, (stepNet routine ev s).ops = [.poll, .hsetOp k "returnvalue"] := by
  cases ev
  · exact stepWith_ops_shape routine s
  · exact Or.inl rfl

/-- Every hash write an iteration issues targets the `returnvalue` field. -/
theorem stepNet_ops_fields (routine : Json → Except PyExc VideoAnalysisResult)
    (ev : NetEvent) (s : RedisState) (k f : String)
    (h : StoreOp.hsetOp k f ∈ (stepNet routine ev s).ops) : f = "returnvalue" := by
  rcases stepNet_ops_shape routine ev s with h1 | ⟨k2, h1⟩
  · rw [h1] at h
    simp at h
  · rw [h1] at h
    simp only [List.mem_cons, List.mem_singleton, List.not_mem_nil, or_false] at h
    rcases h with h | h
    · exact absurd h (by simp)
    · simp only [StoreOp.hsetOp.injEq] at h
      exact h.2

/-- Loop induction: every hash entry present after any number of
iterations was present initially or is a `returnvalue` entry. -/
theorem runLoop_hashes_sub (routine : Json → Except PyExc VideoAnalysisResult)
    (evs : List NetEvent) :
    ∀ (s : RedisState) (k f : String) (v : Wire),
      (k, f, v) ∈ (runLoop routine evs s).1.hashes →
        (k, f, v) ∈ s.hashes ∨ f = "returnvalue" := by
  induction evs with
  | nil => exact fun s k f v h => Or.inl h
  | cons ev evs ih =>
    intro s k f v h
    rcases ih (stepNet routine ev s).state k f v h with h2 | h2
    · exact stepNet_hashes_sub routine ev s k f v h2
    · exact Or.inr h2

/-- Loop induction: every hash write the loop ever issues targets the
`returnvalue` field. -/
theorem runLoop_ops_fields (routine : Json → Except PyExc VideoAnalysisResult)
    (evs : List NetEvent) :
    ∀ (s : RedisState) (k f : String),
      StoreOp.hsetOp k f ∈ (runLoop routine evs s).2.2 → f = "returnvalue" := by
  induction evs with
  | nil =>
    intro s k f h
    simp [runLoop] at h
  | cons ev evs ih =>
    intro s k f h
    rcases List.mem_append.mp h with h | h
    · exact stepNet_ops_fields routine ev s k f h
    · exact ih (stepNet routine ev s).state k f h

/-- Reading a trace with a pending poll accepts at least the traces
readable without one. -/
theorem opsOk_true_of_false (l : List StoreOp) (h : opsOk false l = true) :
    opsOk true l = true := by
  cases l with
  | nil => rfl
  | cons a l =>
    cases a with
    | poll => exact h
    | hsetOp k f => simp [opsOk] at h

/-- Loop induction: the full operation trace keeps every terminal write
immediately after the poll of its own iteration. -/
theorem runLoop_ops_ok (routine : Json → Except PyExc VideoAnalysisResult)
    (evs : List NetEvent) :
    ∀ s : RedisState, opsOk false (runLoop routine evs s).2.2 = true := by
  induction evs with
  | nil => exact fun _ => rfl
  | cons ev evs ih =>
    intro s
    have hsplit : (runLoop routine (ev :: evs) s).2.2 =
        (stepNet routine ev s).ops ++
          (runLoop routine evs (stepNet routine ev s).state).2.2 := rfl
    rw [hsplit]
    rcases stepNet_ops_shape routine ev s with h1 | ⟨k, h1⟩ <;> rw [h1]
    · exact opsOk_true_of_false _ (ih (stepNet routine ev s).state)
    · exact ih (stepNet routine ev s).state

/-- Evaluating the worker's inner body on a well-formed job: it succeeds
with the job's id and writes the serialised `process_video` result. -/
theorem runInner_worker_mkJobWire (id url : String) (s : RedisState) :
    runInner workerRoutine (mkJobWire id url) s =
      .ok (id, hset s ("bull:video-analysis:" ++ id) "returnvalue"
        (json_dumps (process_video (.str url)).toJson)) := rfl

/-! ## Claim theorems -/

/-- C10: the Processing Routine `process_video` is a constant function of
its input — for every `video_url` it returns exactly
`{routes_detected := [], players := [], analysis_complete := true}`. It is
therefore deterministic, and total in the embedding: the source body
(print, sleep, literal return) has no raise path. -/
theorem process_video_is_constant (video_url : Json) :
    process_video video_url =
      { routes_detected := [], players := [], analysis_complete := true } := rfl

/-- C5: the poll is a single atomic move with an idle sentinel. On an
empty Waiting list `brpoplpush` returns the `None` sentinel with the
store untouched, the iteration outcome is idle (not an error), and the
loop carries on with the remaining iterations exactly as before; on a
nonempty Waiting list it moves exactly the tail element to the head of
the Active list in one indivisible step. The 5-second bound itself is
real time and is modelled by the sentinel outcome. -/
theorem acquire_atomic_move_and_idle_sentinel
    (routine : Json → Except PyExc VideoAnalysisResult) (w : Wire)
    (ws act : List Wire) (hs : List (String × String × Wire))
    (evs : List NetEvent) :
    brpoplpush ⟨[], act, hs⟩ = (none, ⟨[], act, hs⟩) ∧
    stepWith routine ⟨[], act, hs⟩ = ⟨.idle, ⟨[], act, hs⟩, [.poll]⟩ ∧
    runLoop routine (.ok :: evs) ⟨[], act, hs⟩ =
      ((runLoop routine evs ⟨[], act, hs⟩).1,
        .idle :: (runLoop routine evs ⟨[], act, hs⟩).2.1,
        .poll :: (runLoop routine evs ⟨[], act, hs⟩).2.2) ∧
    brpoplpush ⟨ws ++ [w], act, hs⟩ = (some w, ⟨ws, w :: act, hs⟩) :=
  ⟨rfl, rfl, rfl, brpoplpush_concat w ws act hs⟩

/-- C4: a successfully processed job's terminal record is stored under
the key `bull:video-analysis:<jobId>` (queue namespace and job id joined
by a colon) in the `returnvalue` field, its wire bytes parse back, and
decoding recovers exactly the Processing Routine's return value — the
codec round-trip is lossless (see `result_roundtrip` for the general
statement over all result values). -/
theorem completed_job_result_key_and_lossless (id url : String)
    (ws act : List Wire) (hs : List (String × String × Wire)) :
    (step ⟨ws ++ [mkJobWire id url], act, hs⟩).outcome = .completed id ∧
    ("bull:video-analysis:" ++ id, "returnvalue",
        json_dumps (process_video (.str url)).toJson) ∈
      (step ⟨ws ++ [mkJobWire id url], act, hs⟩).state.hashes ∧
    json_loads (json_dumps (process_video (.str url)).toJson) =
      .ok (process_video (.str url)).toJson ∧
    VideoAnalysisResult.fromJson? (process_video (.str url)).toJson =
      some (process_video (.str url)) := by
  have hg : (RedisState.mk (ws ++ [mkJobWire id url]) act hs).wait.getLast? =
      some (mkJobWire id url) := by simp
  have hstep := stepWith_pop_ok workerRoutine ⟨ws ++ [mkJobWire id url], act, hs⟩
    (mkJobWire id url) id _ hg (runInner_worker_mkJobWire id url _)
  refine ⟨?_, ?_, rfl, result_roundtrip _⟩
  · unfold step
    rw [hstep]
  · unfold step
    rw [hstep]
    simp [hset, hsetEntries]

/-- C7: every terminal write happens inside its own iteration, directly
after that iteration's poll: in the full store-operation trace of any
worker run, each `hset` immediately follows a poll, so no acquire attempt
is ever interposed between the Processing Routine finishing and the
terminal write, and the write precedes the next polling call. -/
theorem terminal_write_precedes_next_poll (connectOk : Bool)
    (routine : Json → Except PyExc VideoAnalysisResult)
    (evs : List NetEvent) (s : RedisState) :
    opsShapeOk (run_worker connectOk routine evs s).ops = true := by
  cases connectOk
  · rfl
  · exact runLoop_ops_ok routine evs s

/-- C8: a Queue Store that is unreachable at startup is fatal — the
worker returns without claiming readiness, runs no iteration and touches
nothing; a connectivity error during polling is caught by the blanket
handler and the loop retries: the remaining iterations proceed exactly
as they would have, with no crash. -/
theorem connectivity_fatal_at_startup_retried_in_loop
    (routine : Json → Except PyExc VideoAnalysisResult)
    (evs : List NetEvent) (s : RedisState) :
    run_worker false routine evs s = ⟨false, s, [], []⟩ ∧
    run_worker true routine (.connError :: evs) s =
      ⟨true, (runLoop routine evs s).1,
        .workerError (.other "ConnectionError") :: (runLoop routine evs s).2.1,
        .poll :: (runLoop routine evs s).2.2⟩ :=
  ⟨rfl, rfl⟩

/-- C1: evaluation of the worker on undecodable jobs. The Consumer Loop
does not crash — the inner handler catches the `JSONDecodeError` of
malformed bytes and the `KeyError` of a missing `videoUrl`, and the loop
goes on to complete the next job — but, contrary to the claim, no Failed
terminal record is persisted for either bad job: the only hash entry ever
created is the good job's `returnvalue`, and the only state change for
the bad jobs is their move into the Active list. -/
theorem decode_failure_no_failed_record_persisted :
    run_worker true workerRoutine [.ok, .ok, .ok]
        ⟨[mkJobWire "J3" "u3",
          .val (.obj [("id", .str "J2"), ("data", .obj [])]),
          .malformed "not json"], [], []⟩ =
      ⟨true,
        ⟨[], [mkJobWire "J3" "u3",
              .val (.obj [("id", .str "J2"), ("data", .obj [])]),
              .malformed "not json"],
          [("bull:video-analysis:J3", "returnvalue",
            json_dumps (process_video (.str "u3")).toJson)]⟩,
        [.jobError (.jsonDecodeError "Expecting value"),
         .jobError (.keyError "videoUrl"),
         .completed "J3"],
        [.poll, .poll, .poll, .hsetOp "bull:video-analysis:J3" "returnvalue"]⟩ :=
  rfl

/-- C2: evaluation of the worker with a Processing Routine that raises.
The exception reaches the blanket `except Exception` handler, which only
prints: the loop continues and acquires the subsequent job (both jobs end
up moved to Active), but — contrary to the claim — no Failed terminal
record with an error description is persisted: the hashes stay empty. -/
theorem routine_failure_no_failed_record_persisted :
    run_worker true boomRoutine [.ok, .ok]
        ⟨[mkJobWire "J5" "u5", mkJobWire "J4" "u4"], [], []⟩ =
      ⟨true,
        ⟨[], [mkJobWire "J5" "u5", mkJobWire "J4" "u4"], []⟩,
        [.workerError (.other "RuntimeError: boom"),
         .workerError (.other "RuntimeError: boom")],
        [.poll, .poll]⟩ :=
  rfl

/-- C3: evaluation of a fully successful run. The terminal `returnvalue`
record for job J1 exists while the job's raw bytes still sit in the
Active list — the worker never removes anything from
`bull:video-analysis:active` (there is no `lrem`), so, contrary to the
claim, reaching a terminal state does not end the job's Active-list
membership. -/
theorem completed_job_remains_in_active_list :
    run_worker true workerRoutine [.ok]
        ⟨[mkJobWire "J1" "http://x/a.mp4"], [], []⟩ =
      ⟨true,
        ⟨[], [mkJobWire "J1" "http://x/a.mp4"],
          [("bull:video-analysis:J1", "returnvalue",
            json_dumps (process_video (.str "http://x/a.mp4")).toJson)]⟩,
        [.completed "J1"],
        [.poll, .hsetOp "bull:video-analysis:J1" "returnvalue"]⟩ :=
  rfl

/-- C6: evaluation of a fully successful iteration's store operations.
The worker issues exactly one poll and one `returnvalue` write — it never
writes any progress value to the Queue Store, so, contrary to the claim,
no sequence of progress reports (starting at 0 and ending at 100 before
the terminal write) exists for any job. -/
theorem no_progress_values_ever_reported :
    (run_worker true workerRoutine [.ok]
        ⟨[mkJobWire "J1" "u"], [], []⟩).ops =
      [.poll, .hsetOp "bull:video-analysis:J1" "returnvalue"] :=
  rfl

/-- C9: on every iteration whose acquired job fails (decode error,
missing field, or a raising routine — the `jobError`/`workerError`
outcomes), the worker writes nothing: the state after the iteration is
exactly the post-move state, hashes untouched. Moreover over any whole
run, every hash entry that was not present initially is a `returnvalue`
entry, and every hash write ever issued targets the `returnvalue` field —
in particular no `failedReason` (and no progress) field is ever written. -/
theorem failure_iterations_write_nothing_only_returnvalue
    (routine : Json → Except PyExc VideoAnalysisResult)
    (connectOk : Bool) (evs : List NetEvent) (s : RedisState) :
    (∀ e : PyExc,
      ((stepWith routine s).outcome = .jobError e ∨
        (stepWith routine s).outcome = .workerError e) →
        (stepWith routine s).state.hashes = s.hashes ∧
        ∃ w, s.wait.getLast? = some w ∧
          (stepWith routine s).state =
            ⟨s.wait.dropLast, w :: s.active, s.hashes⟩) ∧
    (∀ (k f : String) (v : Wire),
        (k, f, v) ∈ (run_worker connectOk routine evs s).finalState.hashes →
          (k, f, v) ∈ s.hashes ∨ f = "returnvalue") ∧
    (∀ k f : String,
        StoreOp.hsetOp k f ∈ (run_worker connectOk routine evs s).ops →
          f = "returnvalue") := by
  refine ⟨?_, ?_, ?_⟩
  · intro e he
    rcases hg : s.wait.getLast? with _ | w
    · rw [stepWith_empty routine s hg] at he
      rcases he with he | he <;> simp at he
    · rcases hr : runInner routine w ⟨s.wait.dropLast, w :: s.active, s.hashes⟩
          with e2 | ⟨jobId, s2⟩
      · rw [stepWith_pop_err routine s w e2 hg hr]
        by_cases hc : e2.caughtInner
        · rw [if_pos hc]
          exact ⟨rfl, w, rfl, rfl⟩
        · rw [if_neg hc]
          exact ⟨rfl, w, rfl, rfl⟩
      · rw [stepWith_pop_ok routine s w jobId s2 hg hr] at he
        rcases he with he | he <;> simp at he
  · cases connectOk
    · exact fun k f v h => Or.inl h
    · exact fun k f v h => runLoop_hashes_sub routine evs s k f v h
  · cases connectOk
    · intro k f h
      simp [run_worker] at h
    · exact fun k f h => runLoop_ops_fields routine evs s k f h

/-- Witness for C9: concrete instances — a raising-routine iteration
leaves the hashes empty, and a completed run's only record satisfies the
returnvalue-only property. -/
theorem failure_iterations_write_nothing_only_returnvalue_witness :
    (stepWith boomRoutine ⟨[mkJobWire "J4" "u4"], [], []⟩).state.hashes =
      ([] : List (String × String × Wire)) ∧
    (("bull:video-analysis:J1", "returnvalue",
        json_dumps (process_video (.str "u")).toJson) ∈
        ([] : List (String × String × Wire)) ∨
      "returnvalue" = "returnvalue") ∧
    "returnvalue" = "returnvalue" := by
  refine ⟨?_, ?_, ?_⟩
  · exact ((failure_iterations_write_nothing_only_returnvalue boomRoutine true []
      ⟨[mkJobWire "J4" "u4"], [], []⟩).1 (.other "RuntimeError: boom")
      (Or.inr rfl)).1
  · exact (failure_iterations_write_nothing_only_returnvalue workerRoutine true
      [.ok] ⟨[mkJobWire "J1" "u"], [], []⟩).2.1 "bull:video-analysis:J1"
      "returnvalue" (json_dumps (process_video (.str "u")).toJson)
      (List.Mem.head _)
  · exact (failure_iterations_write_nothing_only_returnvalue workerRoutine true
      [.ok] ⟨[mkJobWire "J1" "u"], [], []⟩).2.2 "bull:video-analysis:J1"
      "returnvalue" (by decide)
